import Mathlib

/-!
Shallow embedding of `src/main.py`: a Streamlit form that collects clinical
attributes, encodes categorical fields through fixed tables, feeds the
resulting 9-element feature vector to a pickled classifier, and renders a
risk label with a confidence percentage.

Modelling conventions:
* each per-field dictionary of `ENCODINGS` (lines 34–46) becomes a function
  `String → Option Int`, where `none` models a Python `KeyError`;
* the encoding step of `get_user_inputs` (lines 72–83) becomes
  `get_user_inputs_encode`, returning `Option (List Int)`;
* the classifier artifact is an opaque capability (`Classifier`) with two
  fallible operations; `make_prediction` (lines 86–105) additionally returns
  the list of classifier operations it actually invoked, so that
  non-invocation is provable;
* Python list indexing, including negative indices, is `pyIndex`; `none`
  models an `IndexError`;
* Python `f"..(x):.1f.."` formatting on an exact value is `fmt1`, rounding
  half to even;
* `display_results` (lines 107–136) returns `Option DisplayOut`, where
  `none` models an uncaught exception (indexing a bad position or a `None`
  probability list).  Static informational copy (the fixed advice
  paragraphs and the page boilerplate) carries no data and is represented
  by the success/failure shape and the `balloons` flag.
-/

namespace BCApp

/-- Dictionary `ENCODINGS[\x7bMenopause\x7d]` of main.py line 35: `No ↦ 0`, `Yes ↦ 1`. -/
def ENCODINGS_Menopause : String → Option Int
  | "No" => some 0
  | "Yes" => some 1
  | _ => none

/-- Dictionary `ENCODINGS[\x7bBreast\x7d]` of main.py line 36: `Left ↦ 0`, `None ↦ 1`, `Right ↦ 2`. -/
def ENCODINGS_Breast : String → Option Int
  | "Left" => some 0
  | "None" => some 1
  | "Right" => some 2
  | _ => none

/-- Dictionary `ENCODINGS[\x7bMetastasis\x7d]` of main.py line 37: `No ↦ 0`, `None ↦ 1`, `Yes ↦ 2`. -/
def ENCODINGS_Metastasis : String → Option Int
  | "No" => some 0
  | "None" => some 1
  | "Yes" => some 2
  | _ => none

/-- Dictionary `ENCODINGS[\x7bBreastQuadrant\x7d]` of main.py lines 38–44. -/
def ENCODINGS_BreastQuadrant : String → Option Int
  | "Lower inner" => some 0
  | "Lower outer" => some 1
  | "None" => some 2
  | "Upper inner" => some 3
  | "Upper outer" => some 4
  | _ => none

/-- Dictionary `ENCODINGS[\x7bHistory\x7d]` of main.py line 45: `No ↦ 0`, `Yes ↦ 2`, `None ↦ 1`. -/
def ENCODINGS_History : String → Option Int
  | "No" => some 0
  | "Yes" => some 2
  | "None" => some 1
  | _ => none

/-- The encoding step of `get_user_inputs` (main.py lines 72–83): the list
literal evaluates its elements in order, applying a dictionary lookup to each
categorical field and passing `year`, `age`, `tumor_size` and `inv_nodes`
through unchanged.  A failed lookup (`KeyError`) makes the whole step fail. -/
def get_user_inputs_encode (year age : Int) (menopause : String)
    (tumor_size inv_nodes : Int)
    (breast metastasis breast_quadrant history : String) : Option (List Int) := do
  let m ← ENCODINGS_Menopause menopause
  let b ← ENCODINGS_Breast breast
  let mt ← ENCODINGS_Metastasis metastasis
  let q ← ENCODINGS_BreastQuadrant breast_quadrant
  let h ← ENCODINGS_History history
  pure [year, age, m, tumor_size, inv_nodes, b, mt, q, h]

/-- The model artifact (main.py lines 22–23, spec §6): an opaque capability
exposing `predict` and `predict_proba`; either call may raise, modelled as
`Except.error` carrying `str(e)`. -/
structure Classifier where
  predict : List Int → Except String Int
  predict_proba : List Int → Except String (List Rat)

/-- Outcome of opening and unpickling the artifact file, the one effectful
step of `load_model` (main.py line 22): the file may be absent
(`FileNotFoundError`), unpickling may raise, or a classifier is obtained. -/
inductive LoadAttempt where
  | fileNotFound
  | raised (msg : String)
  | loaded (c : Classifier)

/-- The error text of main.py line 25, shown when the artifact file is absent. -/
def fileNotFoundMessage : String :=
  "Model file not found. Please ensure \x27Deployment_model.pkl\x27 is in the correct directory."

/-- `load_model` (main.py lines 20–29): returns the cached model (or `none`
on either failure) together with the startup error message it displays. -/
def load_model : LoadAttempt → Option Classifier × Option String
  | .fileNotFound => (none, some fileNotFoundMessage)
  | .raised msg => (none, some ("Error loading model: " ++ msg))
  | .loaded c => (some c, none)

/-- `make_prediction` (main.py lines 86–105).  First component: the
`(prediction, probability)` pair the Python function returns, where a string
prediction is the error case.  Second component: the classifier operations
actually invoked, in order, so non-invocation is provable.  The `try` block
catches any exception from either call and returns `"Prediction error: " ++
str(e)` instead of propagating it. -/
def make_prediction (bot : Option Classifier) (input_data : List Int) :
    (Sum String Int × Option (List Rat)) × List String :=
  match bot with
  | none => ((Sum.inl "Error: Model not available", none), [])
  | some c =>
    match c.predict input_data with
    | .error e => ((Sum.inl ("Prediction error: " ++ e), none), ["predict"])
    | .ok pred =>
      match c.predict_proba input_data with
      | .error e =>
          ((Sum.inl ("Prediction error: " ++ e), none), ["predict", "predict_proba"])
      | .ok proba => ((Sum.inr pred, some proba), ["predict", "predict_proba"])

/-- Python list indexing `l[i]`: negative indices count from the end;
`none` models an `IndexError`. -/
def pyIndex {α : Type} (l : List α) (i : Int) : Option α :=
  if 0 ≤ i then l.get? i.toNat
  else if i.natAbs ≤ l.length then l.get? (l.length - i.natAbs)
  else none

/-- Round a rational to the nearest integer, ties to even — the rounding used
by Python float formatting on an exactly representable value. -/
def roundHalfEven (q : Rat) : Int :=
  let f := q.floor
  let r := q - (f : Rat)
  if r < 1 / 2 then f
  else if 1 / 2 < r then f + 1
  else if f % 2 = 0 then f else f + 1

/-- Python `f-string` formatting to one decimal place (`.1f`) on an exact
rational value. -/
def fmt1 (q : Rat) : String :=
  let n := roundHalfEven (q * 10)
  (if n < 0 then "-" else "") ++
    toString (n.natAbs / 10) ++ "." ++ toString (n.natAbs % 10)

/-- What `display_results` (main.py lines 107–136) renders: either the error
banner of line 112, or the success block — the label of line 115, the result
line of line 120/127, whether the celebratory `st.balloons` cue of line 121
fires (this also selects the positive-toned branch with its screening advice
rather than the alarming branch), and the two detail lines of lines 135–136. -/
inductive DisplayOut where
  | failure (msg : String)
  | success (label resultLine : String) (balloons : Bool)
      (detailBenign detailMalignant : String)

/-- `display_results` (main.py lines 107–136), with `none` modelling an
uncaught exception: indexing `probability` out of bounds (line 116 or
135–136) or subscripting a `None` probability (line 116). -/
def display_results (prediction : Sum String Int)
    (probability : Option (List Rat)) : Option DisplayOut :=
  match prediction with
  | Sum.inl msg => some (DisplayOut.failure msg)
  | Sum.inr pred => do
      let proba ← probability
      let result := if pred = 0 then "Benign" else "Malignant"
      let p ← pyIndex proba pred
      let confidence := p * 100
      let p0 ← pyIndex proba 0
      let p1 ← pyIndex proba 1
      pure (DisplayOut.success result
        ("**Result:** " ++ result ++ " (" ++ fmt1 confidence ++ "% confidence)")
        (decide (pred = 0))
        ("Benign probability: " ++ fmt1 (p0 * 100) ++ "%")
        ("Malignant probability: " ++ fmt1 (p1 * 100) ++ "%"))

/-- The risk label shown by a `display_results` outcome, when there is one:
the failure banner carries no label and no risk content. -/
def displayLabel : Option DisplayOut → Option String
  | some (.success label _ _ _ _) => some label
  | _ => none

/-- `startsWithChars needle hay`: `needle` is an initial segment of `hay`. -/
def startsWithChars : List Char → List Char → Bool
  | [], _ => true
  | _ :: _, [] => false
  | a :: as, b :: bs => a == b && startsWithChars as bs

/-- `hasSub needle hay`: `needle` occurs contiguously inside `hay`. -/
def hasSub (needle : List Char) : List Char → Bool
  | [] => startsWithChars needle []
  | b :: bs => startsWithChars needle (b :: bs) || hasSub needle bs

end BCApp

namespace BCApp

/-- Claim C1: the submission (Year=2023, Age=40, Menopause=No, TumorSize=1,
InvNodes=0, Breast=Left, Metastasis=No, Quadrant=Lower inner, History=No)
encodes to exactly the feature vector [2023, 40, 0, 1, 0, 0, 0, 0, 0]. -/
theorem C1_encode_scenario :
    get_user_inputs_encode 2023 40 "No" 1 0 "Left" "No" "Lower inner" "No" =
      some [2023, 40, 0, 1, 0, 0, 0, 0, 0] := rfl

/-- Claim C2: whenever every categorical lookup succeeds, the vector built by
the encoding step of `get_user_inputs` is exactly
`[Year, Age, Menopause, TumorSize, InvNodes, Breast, Metastasis,
BreastQuadrant, History]`, with the encoder applied to each categorical field
and the numeric fields passed through unchanged. -/
theorem C2_vector_order (year age tumor_size inv_nodes : Int)
    (menopause breast metastasis breast_quadrant history : String)
    (m b mt q h : Int)
    (hm : ENCODINGS_Menopause menopause = some m)
    (hb : ENCODINGS_Breast breast = some b)
    (hmt : ENCODINGS_Metastasis metastasis = some mt)
    (hq : ENCODINGS_BreastQuadrant breast_quadrant = some q)
    (hh : ENCODINGS_History history = some h) :
    get_user_inputs_encode year age menopause tumor_size inv_nodes breast
        metastasis breast_quadrant history =
      some [year, age, m, tumor_size, inv_nodes, b, mt, q, h] := by
  simp [get_user_inputs_encode, hm, hb, hmt, hq, hh]

/-- Witness for C2 at a concrete submission exercising every table. -/
theorem C2_vector_order_witness :
    get_user_inputs_encode 2020 50 "Yes" 2 1 "Right" "Yes" "Upper outer" "None" =
      some [2020, 50, 1, 2, 1, 2, 2, 4, 1] :=
  C2_vector_order 2020 50 2 1 "Yes" "Right" "Yes" "Upper outer" "None"
    1 2 2 4 1 rfl rfl rfl rfl rfl

/-- Closed form of `display_results` on a non-string prediction and a
two-element probability list: everything hinges on `probability[prediction]`. -/
theorem display_results_closed_form (pred : Int) (p0 p1 : Rat) :
    display_results (Sum.inr pred) (some [p0, p1]) =
      (pyIndex [p0, p1] pred).bind (fun p =>
        some (DisplayOut.success (if pred = 0 then "Benign" else "Malignant")
          ("**Result:** " ++ (if pred = 0 then "Benign" else "Malignant") ++
            " (" ++ fmt1 (p * 100) ++ "% confidence)")
          (decide (pred = 0))
          ("Benign probability: " ++ fmt1 (p0 * 100) ++ "%")
          ("Malignant probability: " ++ fmt1 (p1 * 100) ++ "%"))) := by
  have h0 : pyIndex [p0, p1] (0 : Int) = some p0 := rfl
  have h1 : pyIndex [p0, p1] (1 : Int) = some p1 := rfl
  cases hx : pyIndex [p0, p1] pred <;> simp [display_results, hx, h0, h1]

/-- Claim C3: whenever `display_results` shows a label at all, that label is
one of `"Benign"` and `"Malignant"` (no third value), and for the predicted
class codes the binary classifier can return, the label is `"Benign"` iff the
code is 0 and `"Malignant"` iff it is 1. -/
theorem C3_label_iff (pred : Int) (p0 p1 : Rat) (l : String)
    (h : displayLabel (display_results (Sum.inr pred) (some [p0, p1])) = some l) :
    (l = "Benign" ∨ l = "Malignant") ∧
      (pred = 0 ∨ pred = 1 →
        ((l = "Benign" ↔ pred = 0) ∧ (l = "Malignant" ↔ pred = 1))) := by
  rw [display_results_closed_form] at h
  rcases hx : pyIndex [p0, p1] pred with _ | p
  · rw [hx] at h
    simp [displayLabel] at h
  · rw [hx] at h
    simp only [Option.some_bind, displayLabel, Option.some.injEq] at h
    by_cases hp : pred = 0
    · rw [if_pos hp] at h
      cases h
      exact ⟨Or.inl rfl, fun _ => by subst hp; exact ⟨by decide, by decide⟩⟩
    · rw [if_neg hp] at h
      cases h
      refine ⟨Or.inr rfl, fun hcase => ?_⟩
      rcases hcase with h0' | h1'
      · exact absurd h0' hp
      · subst h1'
        exact ⟨by decide, by decide⟩

/-- Witness for C3: a benign prediction at concrete probabilities. -/
theorem C3_label_iff_witness :
    displayLabel (display_results (Sum.inr 0) (some [82/100, 18/100])) = some "Benign" ∧
      (("Benign" = "Benign" ∨ ("Benign" : String) = "Malignant") ∧
        ((0 : Int) = 0 ∨ (0 : Int) = 1 →
          ((("Benign" : String) = "Benign" ↔ (0 : Int) = 0) ∧
            (("Benign" : String) = "Malignant" ↔ (0 : Int) = 1)))) :=
  ⟨by with_unfolding_all rfl,
    C3_label_iff 0 (82/100) (18/100) "Benign" (by with_unfolding_all rfl)⟩

/-- Claim C4: a classifier returning class 0 with probabilities
`[0.82, 0.18]` is displayed as label Benign at 82.0% confidence with detail
lines `Benign probability: 82.0%` and `Malignant probability: 18.0%`, and
class 1 with `[0.10, 0.90]` as label Malignant at 90.0% confidence. -/
theorem C4_display_scenarios :
    display_results (Sum.inr 0) (some [82/100, 18/100]) =
      some (DisplayOut.success "Benign" "**Result:** Benign (82.0% confidence)" true
        "Benign probability: 82.0%" "Malignant probability: 18.0%") ∧
    display_results (Sum.inr 1) (some [10/100, 90/100]) =
      some (DisplayOut.success "Malignant" "**Result:** Malignant (90.0% confidence)" false
        "Benign probability: 10.0%" "Malignant probability: 90.0%") :=
  ⟨by with_unfolding_all rfl, by with_unfolding_all rfl⟩

/-- Claim C5: with the cached model `none` (the artifact failed to load),
`make_prediction` returns the ModelUnavailable failure pair on every input
and its invocation trace is empty — neither `predict` nor `predict_proba`
is called. -/
theorem C5_model_unavailable (input_data : List Int) :
    make_prediction none input_data =
      ((Sum.inl "Error: Model not available", none), []) := rfl

/-- A classifier whose operations always raise, used to witness C6. -/
def alwaysFailingClassifier : Classifier :=
  ⟨fun _ => Except.error "boom", fun _ => Except.error "boom"⟩

/-- Claim C6: when `predict` or `predict_proba` raises, `make_prediction`
catches the exception and returns the failure string `"Prediction error: "`
followed by the underlying error detail instead of propagating it, and
`display_results` renders that failure as the error banner, which carries no
risk label. -/
theorem C6_inference_failure (c : Classifier) (input_data : List Int) (e : String)
    (h : c.predict input_data = Except.error e ∨
      ∃ pr, c.predict input_data = Except.ok pr ∧
        c.predict_proba input_data = Except.error e) :
    (make_prediction (some c) input_data).1 =
      (Sum.inl ("Prediction error: " ++ e), none) ∧
    display_results (Sum.inl ("Prediction error: " ++ e)) none =
      some (DisplayOut.failure ("Prediction error: " ++ e)) ∧
    displayLabel (display_results (Sum.inl ("Prediction error: " ++ e)) none) = none := by
  refine ⟨?_, rfl, rfl⟩
  rcases h with h | ⟨pr, h1, h2⟩
  · simp [make_prediction, h]
  · simp [make_prediction, h1, h2]

/-- Witness for C6 with a concretely failing classifier. -/
theorem C6_inference_failure_witness :
    alwaysFailingClassifier.predict [0] = Except.error "boom" ∧
    ((make_prediction (some alwaysFailingClassifier) [0]).1 =
        (Sum.inl ("Prediction error: " ++ "boom"), none) ∧
      display_results (Sum.inl ("Prediction error: " ++ "boom")) none =
        some (DisplayOut.failure ("Prediction error: " ++ "boom")) ∧
      displayLabel (display_results
        (Sum.inl ("Prediction error: " ++ "boom")) none) = none) :=
  ⟨rfl, C6_inference_failure alwaysFailingClassifier [0] "boom" (Or.inl rfl)⟩

/-- Counterexample to claim C7: with the model unavailable, the failure value
an assessment attempt actually returns is the fixed string
`"Error: Model not available"`, and the artifact name
`Deployment_model.pkl` does not occur in it. -/
theorem C7_counterexample :
    (make_prediction none [2023, 40, 0, 1, 0, 0, 0, 0, 0]).1.1 =
      Sum.inl "Error: Model not available" ∧
    hasSub "Deployment_model.pkl".data "Error: Model not available".data = false :=
  ⟨rfl, rfl⟩

/-- Claim C7 amended: when the artifact file is absent, `load_model` caches
no model and its startup error banner names `Deployment_model.pkl`; every
assessment attempt then returns the ModelUnavailable failure with the fixed
message `"Error: Model not available"` (which itself does not name the
artifact) without invoking the classifier. -/
theorem C7_amended (input_data : List Int) :
    (load_model LoadAttempt.fileNotFound).1 = none ∧
    (load_model LoadAttempt.fileNotFound).2 = some fileNotFoundMessage ∧
    hasSub "Deployment_model.pkl".data fileNotFoundMessage.data = true ∧
    make_prediction none input_data =
      ((Sum.inl "Error: Model not available", none), []) :=
  ⟨rfl, rfl, rfl, rfl⟩

/-- Claim C8: a label outside a field's encoding table makes that lookup
fail (`none`, the `KeyError` of a Python dict subscript), and then the whole
encoding step fails rather than producing a default code. -/
theorem C8_unknown_label (year age tumor_size inv_nodes : Int)
    (menopause breast metastasis breast_quadrant history : String)
    (h : ENCODINGS_Menopause menopause = none ∨
      ENCODINGS_Breast breast = none ∨
      ENCODINGS_Metastasis metastasis = none ∨
      ENCODINGS_BreastQuadrant breast_quadrant = none ∨
      ENCODINGS_History history = none) :
    get_user_inputs_encode year age menopause tumor_size inv_nodes breast
      metastasis breast_quadrant history = none := by
  rcases h with h | h | h | h | h
  · simp [get_user_inputs_encode, h]
  · cases hm : ENCODINGS_Menopause menopause <;>
      simp [get_user_inputs_encode, hm, h]
  · cases hm : ENCODINGS_Menopause menopause <;>
      cases hb : ENCODINGS_Breast breast <;>
      simp [get_user_inputs_encode, hm, hb, h]
  · cases hm : ENCODINGS_Menopause menopause <;>
      cases hb : ENCODINGS_Breast breast <;>
      cases hmt : ENCODINGS_Metastasis metastasis <;>
      simp [get_user_inputs_encode, hm, hb, hmt, h]
  · cases hm : ENCODINGS_Menopause menopause <;>
      cases hb : ENCODINGS_Breast breast <;>
      cases hmt : ENCODINGS_Metastasis metastasis <;>
      cases hq : ENCODINGS_BreastQuadrant breast_quadrant <;>
      simp [get_user_inputs_encode, hm, hb, hmt, hq, h]

/-- Witness for C8: the label `"Perhaps"` is in no table, and the encoding
step fails on it. -/
theorem C8_unknown_label_witness :
    ENCODINGS_Menopause "Perhaps" = none ∧
    get_user_inputs_encode 2023 40 "Perhaps" 1 0 "Left" "No" "Lower inner" "No" = none :=
  ⟨rfl, C8_unknown_label 2023 40 1 0 "Perhaps" "Left" "No" "Lower inner" "No" (Or.inl rfl)⟩

/-- Claim C9: the History table maps `No ↦ 0`, `Yes ↦ 2`, `None ↦ 1` (a
non-monotonic assignment), and whenever the encoding step succeeds the
element at position 4 of the feature vector is the plain `inv_nodes` integer,
passed through no encoding table. -/
theorem C9_history_and_inv_nodes :
    ENCODINGS_History "No" = some 0 ∧
    ENCODINGS_History "Yes" = some 2 ∧
    ENCODINGS_History "None" = some 1 ∧
    ∀ (year age tumor_size inv_nodes : Int)
      (menopause breast metastasis breast_quadrant history : String)
      (v : List Int),
      get_user_inputs_encode year age menopause tumor_size inv_nodes breast
        metastasis breast_quadrant history = some v →
      v.get? 4 = some inv_nodes := by
  refine ⟨rfl, rfl, rfl, ?_⟩
  intro year age tumor_size inv_nodes menopause breast metastasis breast_quadrant
    history v hv
  rcases hm : ENCODINGS_Menopause menopause with _ | m <;>
    rcases hb : ENCODINGS_Breast breast with _ | b <;>
    rcases hmt : ENCODINGS_Metastasis metastasis with _ | mt <;>
    rcases hq : ENCODINGS_BreastQuadrant breast_quadrant with _ | q <;>
    rcases hh : ENCODINGS_History history with _ | h2 <;>
    simp [get_user_inputs_encode, hm, hb, hmt, hq, hh] at hv
  all_goals simp [← hv]

/-- Witness for C9: a concrete successful encoding carrying `inv_nodes = 2`
through unchanged at position 4. -/
theorem C9_history_and_inv_nodes_witness :
    get_user_inputs_encode 2023 40 "Yes" 3 2 "Right" "None" "None" "Yes" =
      some [2023, 40, 1, 3, 2, 2, 1, 2, 2] ∧
    ([2023, 40, 1, 3, 2, 2, 1, 2, 2] : List Int).get? 4 = some 2 :=
  ⟨rfl, C9_history_and_inv_nodes.2.2.2 2023 40 3 2 "Yes" "Right" "None" "None" "Yes"
    [2023, 40, 1, 3, 2, 2, 1, 2, 2] rfl⟩

/-- Counterexample to claim C10: the prediction `-1` is a non-string value
outside \x7b0, 1\x7d, yet `probability[-1]` is a valid Python negative index on a
two-element list, so `display_results` completes without an indexing error
instead of going out of bounds. -/
theorem C10_counterexample :
    display_results (Sum.inr (-1)) (some [1/2, 1/2]) =
      some (DisplayOut.success "Malignant" "**Result:** Malignant (50.0% confidence)" false
        "Benign probability: 50.0%" "Malignant probability: 50.0%") := by
  with_unfolding_all rfl

/-- Claim C10 amended: on a two-element probability list, a prediction in
\x7b0, 1\x7d makes every access of `display_results` in-bounds so it completes
without an indexing error, and a non-string prediction outside
\x7b-2, -1, 0, 1\x7d makes the confidence lookup out of bounds (Python negative
indices `-1` and `-2` remain in-bounds on a two-element list). -/
theorem C10_amended (pred : Int) (proba : List Rat) (hlen : proba.length = 2) :
    (pred = 0 ∨ pred = 1 →
      (display_results (Sum.inr pred) (some proba)).isSome = true) ∧
    (¬(pred = -2 ∨ pred = -1 ∨ pred = 0 ∨ pred = 1) →
      pyIndex proba pred = none ∧
        display_results (Sum.inr pred) (some proba) = none) := by
  obtain ⟨p0, p1, rfl⟩ : ∃ p0 p1, proba = [p0, p1] := by
    rcases proba with _ | ⟨a, _ | ⟨b, _ | ⟨c, t⟩⟩⟩ <;> simp at hlen
    exact ⟨a, b, rfl⟩
  constructor
  · rintro (h | h) <;> subst h <;> simp [display_results_closed_form, pyIndex]
  · intro hno
    push_neg at hno
    obtain ⟨hn2, hn1, h0', h1'⟩ := hno
    have hnone : pyIndex [p0, p1] pred = none := by
      rcases le_or_lt 0 pred with hge | hlt
      · have h2 : ([p0, p1] : List Rat).get? pred.toNat = none := by
          obtain ⟨k, hk⟩ : ∃ k, pred.toNat = k + 2 := ⟨pred.toNat - 2, by omega⟩
          rw [hk]
          rfl
        simp [pyIndex, hge, h2]
        omega
      · have hpos : ¬ (0 : Int) ≤ pred := not_le.mpr hlt
        have habs : ¬ pred.natAbs ≤ ([p0, p1] : List Rat).length := by
          simp only [List.length_cons, List.length_nil]
          omega
        simp [pyIndex, hpos, habs]
        omega
    exact ⟨hnone, by simp [display_results_closed_form, hnone]⟩

/-- Witness for C10 at a two-element distribution: prediction 0 completes,
prediction 5 is out of bounds. -/
theorem C10_amended_witness :
    (([1/2, 1/2] : List Rat).length = 2) ∧
    (display_results (Sum.inr 0) (some [1/2, 1/2])).isSome = true ∧
    (pyIndex ([1/2, 1/2] : List Rat) 5 = none ∧
      display_results (Sum.inr 5) (some [1/2, 1/2]) = none) :=
  ⟨rfl, (C10_amended 0 [1/2, 1/2] rfl).1 (Or.inl rfl),
    (C10_amended 5 [1/2, 1/2] rfl).2 (by decide)⟩

end BCApp
